import Mathlib

/-!
Shallow embedding of the forest-fire inference API (`src/app.py`).

The embedded core is the `/predict` request handler: Python-truthiness
validation of the parsed JSON body, pandas `DataFrame` row construction
over the canonical feature columns, the external scaler and classifier
calls, the probability dictionary, the risk-level lookup table, and the
assembly of the JSON response, together with the surrounding
`try/except` that maps any raised exception to an HTTP 500 response.

Modelling conventions:
- JSON values are an inductive `Json`; numbers are `Rat` (Python/JSON
  numerics modelled exactly as rationals; the concrete values appearing
  in the claims are all exactly representable and tie-free, so the
  difference between IEEE doubles and rationals is not observable here).
- A pandas cell is `Option Json`: `none` is the `NaN` that
  `pd.DataFrame([data], columns=USEFUL_FEATURES)` inserts for a key
  absent from the record.
- The external scaler and classifier artifacts are opaque capabilities,
  carried in a `Ctx`; a `loadOk := false` context models the startup
  `joblib.load` failure, after which the module-level name `scaler`
  (assigned second, hence unassigned whenever either load fails) raises
  a `NameError` at its first use inside the handler.
- Raised Python exceptions are `Except String`; the handler's
  `except Exception` wrapper turns an `.error e` into `(500, {"error": e})`.
-/

namespace ForestFire

/-- JSON values as parsed by `request.get_json()`. -/
inductive Json where
  | null : Json
  | bool (b : Bool) : Json
  | num (q : Rat) : Json
  | str (s : String) : Json
  | arr (xs : List Json) : Json
  | obj (fields : List (String × Json)) : Json

/-- Python float values flowing through the scaler/classifier: either a
genuine number or `NaN` (what pandas stores for a missing key and what
numpy produces from a JSON `null`). -/
inductive PFloat where
  | nan : PFloat
  | val (q : Rat) : PFloat
deriving DecidableEq

/-- A pandas cell of the one-row DataFrame: `none` is `NaN` (missing key). -/
abbrev Cell := Option Json

/-- An HTTP response: status code and JSON body, as produced by
`jsonify(...)` (status 200 when unannotated) or `jsonify(...), code`. -/
structure Resp where
  status : Nat
  body : Json

/-- The process context: whether the startup `joblib.load` calls
succeeded, and the opaque capabilities of the loaded artifacts
(`scaler.transform`, `model.predict`, the `hasattr(model, "predict_proba")`
probe and `model.predict_proba`). External calls may raise, hence
`Except String`. -/
structure Ctx where
  loadOk : Bool
  transform : List PFloat → Except String (List PFloat)
  predictFn : List PFloat → Except String Int
  hasProba : Bool
  predictProba : List PFloat → Except String (List PFloat)

/-- The list `USEFUL_FEATURES` (src/app.py lines 38-46): the canonical
feature column order. -/
def USEFUL_FEATURES : List String :=
  ["temperature", "humidity", "smoke", "temp_max", "temp_min",
   "wind_speed", "wind_gust"]

/-- Python truthiness of a parsed JSON body, as tested by `if not data`
(src/app.py line 68): `None`, `False`, `0`, `""`, `[]` and `{}` are falsy. -/
def truthy : Json → Bool
  | .null => false
  | .bool b => b
  | .num q => q != 0
  | .str s => !s.isEmpty
  | .arr xs => !xs.isEmpty
  | .obj fields => !fields.isEmpty

/-- The call `pd.DataFrame([data], columns=USEFUL_FEATURES)` (src/app.py line 72),
restricted to the single row it builds. A dict row selects exactly the
listed columns, inserting `NaN` for a key the record lacks; a list row
must have exactly 7 entries (otherwise pandas raises a column-count
`ValueError`); a scalar row makes pandas raise a shape `ValueError`. -/
def mkRow : Json → Except String (List Cell)
  | .obj fields => .ok (USEFUL_FEATURES.map fun k => fields.lookup k)
  | .arr xs =>
      if xs.length = 7 then .ok (xs.map some)
      else .error ("7 columns passed, passed data had " ++
                   toString xs.length ++ " columns")
  | _ => .error "Shape of passed values is (1, 1), indices imply (1, 7)"

/-- Numeric coercion performed by sklearn input validation
(`check_array`, as invoked inside `scaler.transform`): missing cells and
JSON `null` become `NaN` (permitted by `StandardScaler`), booleans become
0.0/1.0, strings and nested containers raise a `ValueError`. -/
def cellToFloat : Cell → Except String PFloat
  | none => .ok .nan
  | some .null => .ok .nan
  | some (.bool b) => .ok (.val (if b then 1 else 0))
  | some (.num q) => .ok (.val q)
  | some (.str s) => .error ("could not convert string to float: " ++ s)
  | some (.arr _) => .error "setting an array element with a sequence"
  | some (.obj _) => .error "setting an array element with a sequence"

/-- The call `scaler.transform(input_df)` (src/app.py line 75). Evaluating the
module-level name `scaler` happens first: if loading failed at startup
the name is unassigned and a `NameError` is raised before any of the
DataFrame contents are inspected. Otherwise sklearn coerces the cells to
floats and applies the opaque fitted transform. -/
def scalerTransform (ctx : Ctx) (row : List Cell) : Except String (List PFloat) :=
  if ctx.loadOk then
    match row.mapM cellToFloat with
    | .error e => .error e
    | .ok vec => ctx.transform vec
  else .error "name \x27scaler\x27 is not defined"

/-- The call `int(model.predict(scaled)[0])` (src/app.py line 78): the opaque
classifier capability (the unassigned-name case is unreachable because
`scaler` is evaluated first and is unassigned whenever `model` is). -/
def modelPredict (ctx : Ctx) (scaled : List PFloat) : Except String Int :=
  if ctx.loadOk then ctx.predictFn scaled
  else .error "name \x27model\x27 is not defined"

/-- Python `round(float(p), 4)` on a number modelled as a rational: round to 4
decimal places (the claims never exercise a tie, where Python's
banker-rounding of doubles could differ from round-half-up). `NaN`
rounds to `NaN`. -/
def round4 : PFloat → PFloat
  | .nan => .nan
  | .val q => .val (((round (q * 10000) : Int) : Rat) / 10000)

/-- The probability dictionary comprehension
`{str(i): round(float(p), 4) for i, p in enumerate(proba)}`
(src/app.py line 83). -/
def mkProbDict (proba : List PFloat) : List (String × PFloat) :=
  proba.enum.map fun ip => (toString ip.1, round4 ip.2)

/-- Lines 81-85 of src/app.py: probe `hasattr(model, "predict_proba")`;
if present, call it on the scaled row and build the dictionary, else
`prob_dict = None`. -/
def probResult (ctx : Ctx) (scaled : List PFloat) :
    Except String (Option (List (String × PFloat))) :=
  if ctx.hasProba then
    match ctx.predictProba scaled with
    | .error e => .error e
    | .ok proba => .ok (some (mkProbDict proba))
  else .ok none

/-- One entry of the `risk_levels` interpretation table. -/
structure RiskInfo where
  level : String
  emoji : String
  message : String
deriving DecidableEq

/-- The `risk_levels` dictionary (src/app.py lines 88-104), keyed by the
integer prediction. -/
def riskLevels : List (Int × RiskInfo) :=
  [(0, ⟨"Safe", "✅", "No fire risk detected."⟩),
   (1, ⟨"High Risk", "🔥", "Forest fire likely — immediate action advised!"⟩),
   (2, ⟨"Borderline", "⚠️", "Uncertain condition — monitor closely."⟩)]

/-- The lookup `risk_levels.get(prediction, fallback)` (src/app.py lines
106-109): table lookup with the fallback descriptor as default. -/
def riskLevelsGet (p : Int) : RiskInfo :=
  (riskLevels.lookup p).getD ⟨"Unknown", "❓", "Invalid prediction output."⟩

/-- Serialization of the optional probability dictionary into the
response: `None` serializes as JSON `null`, a dict as a JSON object.
(`jsonify` would emit a bare `NaN` token for a float NaN; no claim
reaches that case, and it is rendered here as a marker string.) -/
def probJson : Option (List (String × PFloat)) → Json
  | none => .null
  | some l => .obj (l.map fun kp =>
      (kp.1, match kp.2 with
             | .val q => Json.num q
             | .nan => Json.str "NaN"))

/-- The success response body (src/app.py lines 112-120). -/
def successBody (pred : Int) (probDict : Option (List (String × PFloat))) : Json :=
  .obj [("prediction", .num (pred : Rat)),
        ("level", .str (riskLevelsGet pred).level),
        ("emoji", .str (riskLevelsGet pred).emoji),
        ("message", .str (riskLevelsGet pred).message),
        ("probabilities", probJson probDict)]

/-- The body of the `try` block of the `/predict` handler (src/app.py
lines 64-120): truthiness check, DataFrame row, scaling, prediction,
probabilities, interpretation, response assembly. An `.error` is an
uncaught Python exception escaping the block. -/
def tryPredict (ctx : Ctx) (data : Json) : Except String Resp :=
  if truthy data then
    match mkRow data with
    | .error e => .error e
    | .ok row =>
      match scalerTransform ctx row with
      | .error e => .error e
      | .ok scaled =>
        match modelPredict ctx scaled with
        | .error e => .error e
        | .ok pred =>
          match probResult ctx scaled with
          | .error e => .error e
          | .ok probDict => .ok ⟨200, successBody pred probDict⟩
  else .ok ⟨400, .obj [("error", .str "No input data provided")]⟩

/-- The complete `/predict` handler (src/app.py lines 61-124): the
`except Exception` clause turns any raised exception into
`(500, {"error": str(e)})`. -/
def predict (ctx : Ctx) (data : Json) : Resp :=
  match tryPredict ctx data with
  | .ok r => r
  | .error e => ⟨500, .obj [("error", .str e)]⟩

/-- The `probabilities` field of a response body, when the body is an
object carrying one. -/
def respProbabilities (r : Resp) : Option Json :=
  match r.body with
  | .obj fields => fields.lookup "probabilities"
  | _ => none

/-- The `message` field of a response body. -/
def respMessage (r : Resp) : Option Json :=
  match r.body with
  | .obj fields => fields.lookup "message"
  | _ => none

/-- A loaded context whose classifier is stubbed to return the fixed
label `p`, with an identity scaler and no probability capability. -/
def stubCtx (p : Int) : Ctx where
  loadOk := true
  transform := fun v => .ok v
  predictFn := fun _ => .ok p
  hasProba := false
  predictProba := fun _ => .ok []

/-- A loaded context whose classifier returns label `1` and exposes a
probability capability returning `[0.1, 0.7, 0.2]`. -/
def probaCtx : Ctx where
  loadOk := true
  transform := fun v => .ok v
  predictFn := fun _ => .ok 1
  hasProba := true
  predictProba := fun _ => .ok [.val (1/10), .val (7/10), .val (2/10)]

/-- A context in which the startup artifact loading failed. -/
def unloadedCtx : Ctx where
  loadOk := false
  transform := fun v => .ok v
  predictFn := fun _ => .ok 0
  hasProba := false
  predictProba := fun _ => .ok []

/-- The fields of the spec's end-to-end example record. -/
def specFields : List (String × Json) :=
  [("temperature", .num 35), ("humidity", .num 20), ("smoke", .num 80),
   ("temp_max", .num 40), ("temp_min", .num 25), ("wind_speed", .num 15),
   ("wind_gust", .num 20)]

/-- The spec's end-to-end example record. -/
def specRecord : Json := .obj specFields

/-- The fields of a record with all seven canonical keys but a
non-numeric (string) temperature value. -/
def badFields : List (String × Json) :=
  [("temperature", .str "hot"), ("humidity", .num 20), ("smoke", .num 80),
   ("temp_max", .num 40), ("temp_min", .num 25), ("wind_speed", .num 15),
   ("wind_gust", .num 20)]

/-- A record with all seven canonical keys but a non-numeric (string)
temperature value. -/
def badRecord : Json := .obj badFields

/-- A valid record whose keys are deliberately listed in a non-canonical
order. -/
def scrambledRecord : List (String × Json) :=
  [("wind_gust", .num 20), ("smoke", .num 80), ("temperature", .num 35),
   ("wind_speed", .num 15), ("temp_min", .num 25), ("humidity", .num 20),
   ("temp_max", .num 40)]

/-- A non-empty object is Python-truthy. -/
lemma truthy_obj_of_ne {fields : List (String × Json)} (h : fields ≠ []) :
    truthy (Json.obj fields) = true := by
  cases fields with
  | nil => exact absurd rfl h
  | cons a l => rfl

/-- If `mapM` over `Except` succeeds, the function succeeded on every
element of the list. -/
lemma mapM_ok_of_mem {α β : Type} {f : α → Except String β} {l : List α}
    {ys : List β} (h : l.mapM f = .ok ys) {x : α} (hx : x ∈ l) :
    ∃ y, f x = .ok y := by
  induction l generalizing ys with
  | nil => cases hx
  | cons a as ih =>
    rw [List.mapM_cons] at h
    cases hfa : f a with
    | error e => rw [hfa] at h; simp [Bind.bind, Except.bind] at h
    | ok b =>
      rw [hfa] at h
      cases hrest : as.mapM f with
      | error e => rw [hrest] at h; simp [Bind.bind, Except.bind] at h
      | ok bs =>
        cases hx with
        | head => exact ⟨b, hfa⟩
        | tail _ hx2 => exact ih hrest hx2

/-- If the function succeeds on every element, `mapM` over `Except`
succeeds on the list. -/
lemma mapM_ok_of_forall {α β : Type} {f : α → Except String β} {l : List α}
    (h : ∀ x ∈ l, ∃ y, f x = .ok y) : ∃ ys, l.mapM f = .ok ys := by
  induction l with
  | nil => exact ⟨[], rfl⟩
  | cons a as ih =>
    obtain ⟨b, hb⟩ := h a (List.mem_cons_self a as)
    obtain ⟨bs, hbs⟩ := ih (fun x hx => h x (List.mem_cons_of_mem a hx))
    refine ⟨b :: bs, ?_⟩
    rw [List.mapM_cons, hb, hbs]
    rfl

/-- C1, counterexample: the body `{"temperature": 35}` is a non-empty
object missing six canonical features, yet no failure naming the absent
features occurs: the DataFrame row is built with `NaN` (`none`)
substituted for each missing feature, and the pipeline proceeds through
scaling and prediction to an HTTP 200 response (here with a stub
classifier returning label 0). -/
theorem C1_no_missing_feature_error :
    mkRow (Json.obj [("temperature", Json.num 35)]) =
      .ok [some (Json.num 35), none, none, none, none, none, none] ∧
    predict (stubCtx 0) (Json.obj [("temperature", Json.num 35)]) =
      ⟨200, Json.obj [("prediction", Json.num 0), ("level", Json.str "Safe"),
            ("emoji", Json.str "✅"),
            ("message", Json.str "No fire risk detected."),
            ("probabilities", Json.null)]⟩ ∧
    (predict (stubCtx 0) (Json.obj [("temperature", Json.num 35)])).status ≠ 400 := by
  refine ⟨rfl, by with_unfolding_all rfl, by decide⟩

/-- C1, amended: for a non-empty object body whose present canonical
features are numeric and which is missing at least one canonical
feature, the handler does not fail with any missing-feature error:
DataFrame construction succeeds with `NaN` substituted for each absent
feature, and the pipeline proceeds to scaling and prediction (completing
with HTTP 200 under a loaded stub classifier). -/
theorem C1_missing_features_fill_nan (fields : List (String × Json))
    (hne : fields ≠ [])
    (hnum : ∀ k ∈ USEFUL_FEATURES,
      fields.lookup k = none ∨ ∃ q : Rat, fields.lookup k = some (.num q))
    (k : String) (hk : k ∈ USEFUL_FEATURES) (hmiss : fields.lookup k = none) :
    mkRow (Json.obj fields) = .ok (USEFUL_FEATURES.map fun k => fields.lookup k)
    ∧ (none : Cell) ∈ (USEFUL_FEATURES.map fun k => fields.lookup k)
    ∧ predict (stubCtx 0) (Json.obj fields) = ⟨200, successBody 0 none⟩ := by
  refine ⟨rfl, List.mem_map.mpr ⟨k, hk, hmiss⟩, ?_⟩
  have hcells : ∀ c ∈ (USEFUL_FEATURES.map fun k => fields.lookup k),
      ∃ y, cellToFloat c = .ok y := by
    intro c hc
    obtain ⟨k2, hk2, rfl⟩ := List.mem_map.mp hc
    rcases hnum k2 hk2 with h | ⟨q, h⟩ <;> rw [h]
    · exact ⟨.nan, rfl⟩
    · exact ⟨.val q, rfl⟩
  obtain ⟨vec, hvec⟩ := mapM_ok_of_forall hcells
  simp only [predict, tryPredict, truthy_obj_of_ne hne, if_true, mkRow,
    scalerTransform, modelPredict, probResult, stubCtx, hvec]
  rfl

/-- C1 witness: the theorem applied to the concrete record
`{"temperature": 35}`, missing the `humidity` feature. -/
theorem C1_missing_features_fill_nan_witness :
    mkRow (Json.obj [("temperature", Json.num 35)]) =
      .ok (USEFUL_FEATURES.map fun k =>
        ([("temperature", Json.num 35)] : List (String × Json)).lookup k)
    ∧ (none : Cell) ∈ (USEFUL_FEATURES.map fun k =>
        ([("temperature", Json.num 35)] : List (String × Json)).lookup k)
    ∧ predict (stubCtx 0) (Json.obj [("temperature", Json.num 35)]) =
        ⟨200, successBody 0 none⟩ :=
  C1_missing_features_fill_nan [("temperature", Json.num 35)]
    (by simp)
    (by
      intro k hk
      simp only [USEFUL_FEATURES, List.mem_cons, List.not_mem_nil, or_false] at hk
      rcases hk with rfl | rfl | rfl | rfl | rfl | rfl | rfl
      · exact Or.inr ⟨35, rfl⟩
      all_goals exact Or.inl rfl)
    "humidity" (by simp [USEFUL_FEATURES]) rfl

/-- C2: for a record whose seven canonical features are present with
numeric values, the DataFrame row is a length-7 sequence whose value
order is exactly [temperature, humidity, smoke, temp_max, temp_min,
wind_speed, wind_gust]; the hypotheses constrain only the key lookups,
so the result is independent of the key order of the input mapping. -/
theorem C2_canonical_order (fields : List (String × Json))
    (vt vh vs vmx vmn vws vwg : Rat)
    (h1 : fields.lookup "temperature" = some (.num vt))
    (h2 : fields.lookup "humidity" = some (.num vh))
    (h3 : fields.lookup "smoke" = some (.num vs))
    (h4 : fields.lookup "temp_max" = some (.num vmx))
    (h5 : fields.lookup "temp_min" = some (.num vmn))
    (h6 : fields.lookup "wind_speed" = some (.num vws))
    (h7 : fields.lookup "wind_gust" = some (.num vwg)) :
    mkRow (Json.obj fields) =
      .ok [some (.num vt), some (.num vh), some (.num vs), some (.num vmx),
           some (.num vmn), some (.num vws), some (.num vwg)] := by
  simp only [mkRow, USEFUL_FEATURES, List.map_cons, List.map_nil,
    h1, h2, h3, h4, h5, h6, h7]

/-- C2 witness: the theorem applied to a record with scrambled key
order still produces the canonical value order. -/
theorem C2_canonical_order_witness :
    scrambledRecord.lookup "temperature" = some (Json.num 35) ∧
    mkRow (Json.obj scrambledRecord) =
      .ok [some (Json.num 35), some (Json.num 20), some (Json.num 80),
           some (Json.num 40), some (Json.num 25), some (Json.num 15),
           some (Json.num 20)] :=
  ⟨rfl, C2_canonical_order scrambledRecord 35 20 80 40 25 15 20
    rfl rfl rfl rfl rfl rfl rfl⟩

/-- C3, counterexample: the implemented interpretation table does not
reproduce the spec's table: with a classifier stubbed to return label 1
and no probability capability, the end-to-end response message is
"Forest fire likely — immediate action advised!", not the claimed
"Forest fire likely — take action!", and the label-2 message is
"Uncertain condition — monitor closely.", not "Uncertain — monitor
closely.". -/
theorem C3_table_differs :
    predict (stubCtx 1) specRecord =
      ⟨200, Json.obj [("prediction", Json.num 1), ("level", Json.str "High Risk"),
            ("emoji", Json.str "🔥"),
            ("message", Json.str "Forest fire likely — immediate action advised!"),
            ("probabilities", Json.null)]⟩ ∧
    respMessage (predict (stubCtx 1) specRecord) ≠
      some (Json.str "Forest fire likely — take action!") ∧
    (riskLevelsGet 2).message ≠ "Uncertain — monitor closely." := by
  refine ⟨by with_unfolding_all rfl, ?_, by decide⟩
  intro h
  rw [show respMessage (predict (stubCtx 1) specRecord) =
      some (Json.str "Forest fire likely — immediate action advised!") from rfl] at h
  simp only [Option.some.injEq, Json.str.injEq] at h
  exact absurd h (by decide)

/-- C3, amended: the lookup table maps 0 to (Safe, ✅, "No fire risk
detected."), 1 to (High Risk, 🔥, "Forest fire likely — immediate
action advised!") and 2 to (Borderline, ⚠️, "Uncertain condition —
monitor closely."); a successful prediction with label 1 and no
probability capability yields exactly the 200 response with those
fields and null probabilities. -/
theorem C3_table_as_implemented :
    riskLevelsGet 0 = ⟨"Safe", "✅", "No fire risk detected."⟩ ∧
    riskLevelsGet 1 =
      ⟨"High Risk", "🔥", "Forest fire likely — immediate action advised!"⟩ ∧
    riskLevelsGet 2 =
      ⟨"Borderline", "⚠️", "Uncertain condition — monitor closely."⟩ ∧
    predict (stubCtx 1) specRecord =
      ⟨200, Json.obj [("prediction", Json.num 1), ("level", Json.str "High Risk"),
            ("emoji", Json.str "🔥"),
            ("message", Json.str "Forest fire likely — immediate action advised!"),
            ("probabilities", Json.null)]⟩ :=
  ⟨rfl, rfl, rfl, by with_unfolding_all rfl⟩

/-- C4, counterexample: a record whose `temperature` is the string
"hot" is answered with HTTP 500 (the raised float-conversion error hits
the generic exception handler), not 400; a scalar non-object body (the
string "hello") is answered with HTTP 500 from the pandas shape error;
and a 7-element array body is not rejected at all — pandas assigns it
positionally as the feature row and the request completes with HTTP
200. -/
theorem C4_nonnumeric_is_500 :
    predict (stubCtx 1) badRecord =
      ⟨500, Json.obj [("error",
        Json.str "could not convert string to float: hot")]⟩ ∧
    (predict (stubCtx 1) badRecord).status ≠ 400 ∧
    predict (stubCtx 1) (Json.str "hello") =
      ⟨500, Json.obj [("error",
        Json.str "Shape of passed values is (1, 1), indices imply (1, 7)")]⟩ ∧
    (predict (stubCtx 0) (Json.arr [Json.num 1, Json.num 2, Json.num 3,
        Json.num 4, Json.num 5, Json.num 6, Json.num 7])).status = 200 :=
  ⟨rfl, by decide, rfl, rfl⟩

/-- C4, amended: with the artifacts loaded, a body carrying a string
value for any canonical feature is surfaced as HTTP 500 by the generic
exception handler, not as a 400 validation error; non-object bodies on
which pandas raises — any truthy scalar (number, string or true) and
any non-empty array whose length is not 7 — are likewise surfaced as
HTTP 500 (a 7-element array body is instead accepted positionally as
the feature row, and only falsy bodies receive 400). -/
theorem C4_nonnumeric_yields_500 (ctx : Ctx) :
    (∀ (fields : List (String × Json)) (k s : String), ctx.loadOk = true →
        k ∈ USEFUL_FEATURES → fields.lookup k = some (.str s) →
        (predict ctx (Json.obj fields)).status = 500) ∧
    (∀ q : Rat, q ≠ 0 → (predict ctx (Json.num q)).status = 500) ∧
    (∀ s : String, s ≠ "" → (predict ctx (Json.str s)).status = 500) ∧
    (predict ctx (Json.bool true)).status = 500 ∧
    (∀ xs : List Json, xs ≠ [] → xs.length ≠ 7 →
        (predict ctx (Json.arr xs)).status = 500) := by
  refine ⟨?_, ?_, ?_, rfl, ?_⟩
  · intro fields k s hload hk hs
    have hne : fields ≠ [] := by
      intro h
      subst h
      simp [List.lookup] at hs
    have hmem : (some (Json.str s) : Cell) ∈
        (USEFUL_FEATURES.map fun k => fields.lookup k) :=
      List.mem_map.mpr ⟨k, hk, hs⟩
    cases hm : (USEFUL_FEATURES.map fun k => fields.lookup k).mapM cellToFloat with
    | ok ys =>
      exfalso
      obtain ⟨y, hy⟩ := mapM_ok_of_mem hm hmem
      simp [cellToFloat] at hy
    | error e =>
      simp only [predict, tryPredict, truthy_obj_of_ne hne, if_true, mkRow,
        scalerTransform, hload, hm]
  · intro q hq
    have ht : truthy (Json.num q) = true := by simp [truthy, hq]
    simp only [predict, tryPredict, ht, if_true, mkRow]
  · intro s hs
    have hie : s.isEmpty = false := by
      cases hie2 : s.isEmpty with
      | false => rfl
      | true => exact absurd ((String.isEmpty_iff s).mp hie2) hs
    have ht : truthy (Json.str s) = true := by simp [truthy, hie]
    simp only [predict, tryPredict, ht, if_true, mkRow]
  · intro xs hne hlen
    have ht : truthy (Json.arr xs) = true := by
      cases xs with
      | nil => exact absurd rfl hne
      | cons a l => rfl
    simp only [predict, tryPredict, ht, if_true, mkRow, if_neg hlen]

/-- C4 witness: the theorem applied at the loaded stub context to the
record with a string temperature, the number 5, the string "hello",
true, and a length-2 array. -/
theorem C4_nonnumeric_yields_500_witness :
    (predict (stubCtx 1) (Json.obj badFields)).status = 500 ∧
    (predict (stubCtx 1) (Json.num 5)).status = 500 ∧
    (predict (stubCtx 1) (Json.str "hello")).status = 500 ∧
    (predict (stubCtx 1) (Json.bool true)).status = 500 ∧
    (predict (stubCtx 1) (Json.arr [Json.num 1, Json.num 2])).status = 500 :=
  ⟨(C4_nonnumeric_yields_500 (stubCtx 1)).1 badFields "temperature" "hot" rfl
      (by simp [USEFUL_FEATURES]) rfl,
   (C4_nonnumeric_yields_500 (stubCtx 1)).2.1 5 (by norm_num),
   (C4_nonnumeric_yields_500 (stubCtx 1)).2.2.1 "hello" (by decide),
   (C4_nonnumeric_yields_500 (stubCtx 1)).2.2.2.1,
   (C4_nonnumeric_yields_500 (stubCtx 1)).2.2.2.2 [Json.num 1, Json.num 2]
      (by simp) (by decide)⟩

/-- C5, counterexample: when the startup artifact loading failed, a
well-formed record is answered with HTTP 500 whose error string is the
generic NameError text, not a distinct unavailability error; and the
pipeline is still attempted first — a malformed body produces the
DataFrame shape error instead, which differs from the NameError text. -/
theorem C5_no_distinct_unavailability_error :
    predict unloadedCtx specRecord =
      ⟨500, Json.obj [("error",
        Json.str "name \x27scaler\x27 is not defined")]⟩ ∧
    predict unloadedCtx (Json.str "hello") =
      ⟨500, Json.obj [("error",
        Json.str "Shape of passed values is (1, 1), indices imply (1, 7)")]⟩ ∧
    "Shape of passed values is (1, 1), indices imply (1, 7)" ≠
      "name \x27scaler\x27 is not defined" :=
  ⟨rfl, rfl, by decide⟩

/-- C5, amended: if the startup loading failed, every truthy object
body — in particular every well-formed record — receives HTTP 500 with
error string "name 'scaler' is not defined" (the NameError caught by
the generic handler), the same for every call until restart; the
DataFrame construction still runs before the failure. -/
theorem C5_unloaded_name_error (ctx : Ctx) (fields : List (String × Json))
    (hload : ctx.loadOk = false) (hne : fields ≠ []) :
    predict ctx (Json.obj fields) =
      ⟨500, Json.obj [("error",
        Json.str "name \x27scaler\x27 is not defined")]⟩ := by
  simp only [predict, tryPredict, truthy_obj_of_ne hne, if_true, mkRow,
    scalerTransform, hload]
  rfl

/-- C5 witness: the theorem applied to the spec's well-formed record in
the unloaded context. -/
theorem C5_unloaded_name_error_witness :
    predict unloadedCtx (Json.obj specFields) =
      ⟨500, Json.obj [("error",
        Json.str "name \x27scaler\x27 is not defined")]⟩ :=
  C5_unloaded_name_error unloadedCtx specFields rfl (by simp [specFields])

/-- C6: for every integer label outside 0, 1, 2, the interpreter
returns the fallback descriptor (Unknown, ❓, "Invalid prediction
output.") and a request whose classifier produces that label still
completes with HTTP 200 rather than failing. -/
theorem C6_unknown_label (p : Int) (h0 : p ≠ 0) (h1 : p ≠ 1) (h2 : p ≠ 2) :
    riskLevelsGet p = ⟨"Unknown", "❓", "Invalid prediction output."⟩ ∧
    predict (stubCtx p) specRecord =
      ⟨200, Json.obj [("prediction", Json.num (p : Rat)),
            ("level", Json.str "Unknown"), ("emoji", Json.str "❓"),
            ("message", Json.str "Invalid prediction output."),
            ("probabilities", Json.null)]⟩ := by
  have e0 : (p == 0) = false := beq_eq_false_iff_ne.mpr h0
  have e1 : (p == 1) = false := beq_eq_false_iff_ne.mpr h1
  have e2 : (p == 2) = false := beq_eq_false_iff_ne.mpr h2
  have htab : riskLevelsGet p = ⟨"Unknown", "❓", "Invalid prediction output."⟩ := by
    simp [riskLevelsGet, riskLevels, List.lookup, e0, e1, e2]
  refine ⟨htab, ?_⟩
  have hbase : predict (stubCtx p) specRecord = ⟨200, successBody p none⟩ := rfl
  rw [hbase]
  simp [successBody, htab, probJson]

/-- C6 witness: the theorem applied to the out-of-range label 99. -/
theorem C6_unknown_label_witness :
    riskLevelsGet 99 = ⟨"Unknown", "❓", "Invalid prediction output."⟩ ∧
    predict (stubCtx 99) specRecord =
      ⟨200, Json.obj [("prediction", Json.num ((99 : Int) : Rat)),
            ("level", Json.str "Unknown"), ("emoji", Json.str "❓"),
            ("message", Json.str "Invalid prediction output."),
            ("probabilities", Json.null)]⟩ :=
  C6_unknown_label 99 (by decide) (by decide) (by decide)

/-- C7: with a probability capability returning [0.1, 0.7, 0.2] the
response field `probabilities` is {"0": 0.1, "1": 0.7, "2": 0.2} with
values rounded to 4 decimal places; and whenever the classifier has no
probability capability, any 200 response carries `probabilities` equal
to JSON null — never an empty mapping. -/
theorem C7_probabilities :
    predict probaCtx specRecord =
      ⟨200, Json.obj [("prediction", Json.num 1), ("level", Json.str "High Risk"),
            ("emoji", Json.str "🔥"),
            ("message", Json.str "Forest fire likely — immediate action advised!"),
            ("probabilities", Json.obj [("0", Json.num (1/10)),
                ("1", Json.num (7/10)), ("2", Json.num (2/10))])]⟩ ∧
    Json.null ≠ Json.obj [] ∧
    ∀ (ctx : Ctx) (data : Json), ctx.hasProba = false →
      (predict ctx data).status = 200 →
      respProbabilities (predict ctx data) = some Json.null := by
  refine ⟨by with_unfolding_all rfl, fun h => Json.noConfusion h, ?_⟩
  intro ctx data hproba hstatus
  unfold predict at hstatus ⊢
  cases htp : tryPredict ctx data with
  | error e =>
    rw [htp] at hstatus
    have h5 : (500 : Nat) = 200 := hstatus
    exact absurd h5 (by decide)
  | ok r =>
    rw [htp] at hstatus
    have hst : r.status = 200 := hstatus
    show respProbabilities r = some Json.null
    unfold tryPredict at htp
    split at htp
    · split at htp
      · exact Except.noConfusion htp
      · split at htp
        · exact Except.noConfusion htp
        · split at htp
          · exact Except.noConfusion htp
          · split at htp
            · exact Except.noConfusion htp
            · next probDict heq =>
                rw [probResult, if_neg (by simp [hproba])] at heq
                injection heq with heq2
                injection htp with h
                subst h
                subst heq2
                rfl
    · injection htp with h
      subst h
      exact absurd hst (by decide)

/-- C7 witness: the no-probability branch of the theorem applied to the
loaded stub classifier on the spec record. -/
theorem C7_probabilities_witness :
    respProbabilities (predict (stubCtx 1) specRecord) = some Json.null :=
  C7_probabilities.2.2 (stubCtx 1) specRecord rfl rfl

/-- C8: posting the empty object to /predict yields HTTP 400 with the
non-empty error string "No input data provided"; the response is the
same for every context, so neither the scaler nor the classifier is
consulted. -/
theorem C8_empty_object (ctx : Ctx) :
    predict ctx (Json.obj []) =
      ⟨400, Json.obj [("error", Json.str "No input data provided")]⟩ ∧
    "No input data provided" ≠ "" :=
  ⟨rfl, by decide⟩

/-- C8 witness: the theorem applied to the unloaded context (the 400
response is produced even when no artifact is available). -/
theorem C8_empty_object_witness :
    predict unloadedCtx (Json.obj []) =
      ⟨400, Json.obj [("error", Json.str "No input data provided")]⟩ ∧
    "No input data provided" ≠ "" :=
  C8_empty_object unloadedCtx

/-- C9: extra keys are ignored — two non-empty records that agree on
the lookups of all seven canonical feature keys produce identical
responses in every context, whatever additional keys either carries. -/
theorem C9_extra_keys_ignored (ctx : Ctx) (f1 f2 : List (String × Json))
    (h1 : f1 ≠ []) (h2 : f2 ≠ [])
    (hagree : ∀ k ∈ USEFUL_FEATURES, f1.lookup k = f2.lookup k) :
    predict ctx (Json.obj f1) = predict ctx (Json.obj f2) := by
  have hrow : (USEFUL_FEATURES.map fun k => f1.lookup k) =
      (USEFUL_FEATURES.map fun k => f2.lookup k) :=
    List.map_congr_left hagree
  simp only [predict, tryPredict, truthy_obj_of_ne h1, truthy_obj_of_ne h2,
    if_true, mkRow, hrow]

/-- C9 witness: the spec record with an additional unrecognized key
gets the same response as the spec record itself. -/
theorem C9_extra_keys_ignored_witness :
    predict (stubCtx 1) (Json.obj (specFields ++ [("extra", Json.bool true)])) =
      predict (stubCtx 1) (Json.obj specFields) :=
  C9_extra_keys_ignored (stubCtx 1) (specFields ++ [("extra", Json.bool true)])
    specFields (by simp [specFields]) (by simp [specFields])
    (by
      intro k hk
      simp only [USEFUL_FEATURES, List.mem_cons, List.not_mem_nil, or_false] at hk
      rcases hk with rfl | rfl | rfl | rfl | rfl | rfl | rfl <;> rfl)

/-- C10: every falsy parsed JSON body — null, false, 0, the empty
string, the empty array and the empty object — is rejected with HTTP
400 and the message "No input data provided", identically in every
context, hence before any vectorization, scaling or prediction. -/
theorem C10_falsy_rejected (ctx : Ctx) :
    predict ctx Json.null =
      ⟨400, Json.obj [("error", Json.str "No input data provided")]⟩ ∧
    predict ctx (Json.bool false) =
      ⟨400, Json.obj [("error", Json.str "No input data provided")]⟩ ∧
    predict ctx (Json.num 0) =
      ⟨400, Json.obj [("error", Json.str "No input data provided")]⟩ ∧
    predict ctx (Json.arr []) =
      ⟨400, Json.obj [("error", Json.str "No input data provided")]⟩ ∧
    predict ctx (Json.str "") =
      ⟨400, Json.obj [("error", Json.str "No input data provided")]⟩ ∧
    predict ctx (Json.obj []) =
      ⟨400, Json.obj [("error", Json.str "No input data provided")]⟩ :=
  ⟨rfl, rfl, rfl, rfl, rfl, rfl⟩

/-- C10 witness: the theorem applied to the unloaded context. -/
theorem C10_falsy_rejected_witness :
    predict unloadedCtx Json.null =
      ⟨400, Json.obj [("error", Json.str "No input data provided")]⟩ ∧
    predict unloadedCtx (Json.bool false) =
      ⟨400, Json.obj [("error", Json.str "No input data provided")]⟩ ∧
    predict unloadedCtx (Json.num 0) =
      ⟨400, Json.obj [("error", Json.str "No input data provided")]⟩ ∧
    predict unloadedCtx (Json.arr []) =
      ⟨400, Json.obj [("error", Json.str "No input data provided")]⟩ ∧
    predict unloadedCtx (Json.str "") =
      ⟨400, Json.obj [("error", Json.str "No input data provided")]⟩ ∧
    predict unloadedCtx (Json.obj []) =
      ⟨400, Json.obj [("error", Json.str "No input data provided")]⟩ :=
  C10_falsy_rejected unloadedCtx

end ForestFire
